import Mathlib

/-!
Verification of the mandrake python binding layer (src/python_bindings.cpp).

The file shallowly embeds the pybind11 module registration as explicit data:
the module is a list of registered classes and functions, each function
carrying its argument list with the default values written in the source.
The engines wrapped by the bindings (wtsne.hpp, pairsnp.hpp) are not part of
the sources available here; where a claim depends on their behaviour the
corresponding definition is modelled from the specification and is marked as
such in its doc comment.
-/

/-- Default value attached to a pybind11 argument, as written in the source
(integer or boolean literals only appear there). -/
inductive PyDefault
  | int : Int → PyDefault
  | bool : Bool → PyDefault
deriving DecidableEq

/-- One registered argument: its python keyword name and optional default.
An argument with no default must be supplied by the caller. -/
structure PyArg where
  name : String
  default : Option PyDefault
deriving DecidableEq

/-- Shorthand for a required argument (py::arg with no default). -/
def req (n : String) : PyArg := ⟨n, none⟩

/-- Shorthand for an optional argument with an integer default. -/
def optInt (n : String) (i : Int) : PyArg := ⟨n, some (.int i)⟩

/-- Shorthand for an optional argument with a boolean default. -/
def optBool (n : String) (b : Bool) : PyArg := ⟨n, some (.bool b)⟩

/-- Floating-point precision of a template instantiation in the source. -/
inductive Precision
  | fp32
  | fp64
deriving DecidableEq

/-- A function registered on the module with m.def: python name, docstring,
argument list, and the precision of the C++ template instantiation it binds
(none when the bound function is not an embedding-engine instantiation). -/
structure PyFunc where
  name : String
  doc : String
  args : List PyArg
  impl : Option Precision
deriving DecidableEq

/-- C++ types appearing in the exposed py::init constructor signature. -/
inductive CType
  | cbool
  | csize_t
  | cuint64_t
deriving DecidableEq

/-- Holder type of a py::class_ registration: plain unique ownership or a
std::shared_ptr reference-counted holder. -/
inductive Holder
  | uniquePtr
  | sharedPtr
deriving DecidableEq

/-- A class registered with py::class_: python name, holder type, exposed
constructor signature (if any), exposed method names, and the precision of
the sce_results template instantiation it wraps. -/
structure PyClassDef where
  name : String
  holder : Holder
  ctorSig : Option (List CType)
  methods : List String
  precision : Precision
deriving DecidableEq

/-- The whole pybind11 module: docstring, registered classes, registered
functions. -/
structure PyModule where
  doc : String
  classes : List PyClassDef
  funcs : List PyFunc
deriving DecidableEq

/-- Lines 14-22 of python_bindings.cpp: py::class_ of sce_results(double)
with a std::shared_ptr holder, a (bool, size_t, uint64_t) constructor and
five bound methods. -/
def sce_result_binding : PyClassDef :=
  { name := "sce_result"
    holder := .sharedPtr
    ctorSig := some [CType.cbool, CType.csize_t, CType.cuint64_t]
    methods := ["animated", "n_frames", "get_eq", "get_embedding",
                "get_embedding_frame"]
    precision := .fp64 }

/-- Lines 23-31 of python_bindings.cpp: py::class_ of sce_results(float),
identical surface to the double instantiation. -/
def sce_result_fp32_binding : PyClassDef :=
  { name := "sce_result_fp32"
    holder := .sharedPtr
    ctorSig := some [CType.cbool, CType.csize_t, CType.cuint64_t]
    methods := ["animated", "n_frames", "get_eq", "get_embedding",
                "get_embedding_frame"]
    precision := .fp32 }

/-- Lines 34-40 of python_bindings.cpp: the wtsne entry point. The source
comment at line 47 records that the python (CPU) path always uses fp64. -/
def wtsne_binding : PyFunc :=
  { name := "wtsne"
    doc := "Run stochastic cluster embedding"
    args := [req "I_vec", req "J_vec", req "dist_vec", req "weights",
             req "perplexity", req "maxIter",
             optInt "nRepuSamp" 5, optInt "eta0" 1, optInt "bInit" 0,
             optBool "animated" false, optInt "n_workers" 128,
             optInt "n_threads" 1, optInt "seed" 1]
    impl := some .fp64 }

/-- Lines 42-44 of python_bindings.cpp: the pairsnp entry point, four
required arguments and no defaults. -/
def pairsnp_binding : PyFunc :=
  { name := "pairsnp"
    doc := "Run pairsnp"
    args := [req "fasta", req "n_threads", req "dist", req "knn"]
    impl := none }

/-- Lines 54-62 of python_bindings.cpp: wtsne_gpu_fp64, binding the
wtsne_gpu template at double precision. -/
def wtsne_gpu_fp64_binding : PyFunc :=
  { name := "wtsne_gpu_fp64"
    doc := "Run stochastic cluster embedding with CUDA"
    args := [req "I_vec", req "J_vec", req "dist_vec", req "weights",
             req "perplexity", req "maxIter",
             optInt "blockSize" 128, optInt "n_workers" 128,
             optInt "nRepuSamp" 5, optInt "eta0" 1, optInt "bInit" 0,
             optBool "animated" false, optInt "cpu_threads" 1,
             optInt "device_id" 0, optInt "seed" 1]
    impl := some .fp64 }

/-- Lines 64-72 of python_bindings.cpp: wtsne_gpu_fp32, binding the
wtsne_gpu template at single precision with the same argument list. -/
def wtsne_gpu_fp32_binding : PyFunc :=
  { name := "wtsne_gpu_fp32"
    doc := "Run stochastic cluster embedding with CUDA"
    args := [req "I_vec", req "J_vec", req "dist_vec", req "weights",
             req "perplexity", req "maxIter",
             optInt "blockSize" 128, optInt "n_workers" 128,
             optInt "nRepuSamp" 5, optInt "eta0" 1, optInt "bInit" 0,
             optBool "animated" false, optInt "cpu_threads" 1,
             optInt "device_id" 0, optInt "seed" 1]
    impl := some .fp32 }

/-- The PYBIND11_MODULE(SCE, m) body, lines 9-74. The gpu_available flag
models the GPU_AVAILABLE preprocessor guard around lines 46-73: the two
accelerator entry points are registered only when it holds. -/
def SCE (gpu_available : Bool) : PyModule :=
  { doc := "Stochastic cluster embedding"
    classes := [sce_result_binding, sce_result_fp32_binding]
    funcs := [wtsne_binding, pairsnp_binding] ++
      (match gpu_available with
        | true => [wtsne_gpu_fp64_binding, wtsne_gpu_fp32_binding]
        | false => []) }

/-- Look up a registered function by python name. -/
def PyModule.findFunc (m : PyModule) (n : String) : Option PyFunc :=
  m.funcs.find? (fun f => f.name == n)

/-- Names of the arguments a caller must supply (those with no default). -/
def requiredArgNames (f : PyFunc) : List String :=
  (f.args.filter (fun a => a.default.isNone)).map PyArg.name

/-- Default value registered for a named argument of a function. -/
def argDefault (f : PyFunc) (n : String) : Option PyDefault :=
  (f.args.find? (fun a => a.name == n)).bind PyArg.default

/-- Error kind raised by result-container accessors at access time: the
out-of-range / usage error of the specification's error taxonomy. -/
inductive SCEError
  | usage
deriving DecidableEq

/-- Modelled from the spec: the sce_results template of wtsne.hpp is not
among the sources here, only its binding surface is. Following the data
model of the specification, a Result owns an animated flag, an ordered
sequence of coordinate-array snapshots (frames), a final embedding and a
scalar equalization metric, all at one floating precision given by the
type parameter. -/
structure sce_results (α : Type) where
  animated : Bool
  frames : List (List α)
  embedding : List α
  eq : α
deriving DecidableEq

/-- Modelled from the spec: report whether the run was animated. -/
def sce_results.is_animated {α : Type} (r : sce_results α) : Bool :=
  r.animated

/-- Modelled from the spec: report the number of captured frames. -/
def sce_results.n_frames {α : Type} (r : sce_results α) : Nat :=
  r.frames.length

/-- Modelled from the spec: retrieve the scalar equalization metric. -/
def sce_results.get_eq {α : Type} (r : sce_results α) : α :=
  r.eq

/-- Modelled from the spec: retrieve the full final embedding. -/
def sce_results.get_embedding {α : Type} (r : sce_results α) : List α :=
  r.embedding

/-- Modelled from the spec: retrieve a frame by index; an error of the
usage kind when the run was not animated or the index is out of range,
never data. -/
def sce_results.get_embedding_frame {α : Type} (r : sce_results α)
    (frame : Nat) : Except SCEError (List α) :=
  if h : r.animated = true ∧ frame < r.frames.length then
    .ok (r.frames.get ⟨frame, h.2⟩)
  else
    .error .usage

/-- The five method names every result class exposes (lines 17-22 and
26-31 of python_bindings.cpp). -/
def resultMethods : List String :=
  ["animated", "n_frames", "get_eq", "get_embedding", "get_embedding_frame"]

/-- Value returned by a result-container method call. -/
inductive MethodOut (α : Type)
  | asBool : Bool → MethodOut α
  | asNat : Nat → MethodOut α
  | scalar : α → MethodOut α
  | vec : List α → MethodOut α
  | failed : SCEError → MethodOut α

/-- Dispatch of a method call on a result object by its exposed python
name, state-passing so that mutation (or its absence) is visible: the
returned pair carries the object state after the call next to the value.
The frame index argument is only consulted by get_embedding_frame. -/
def runMethod {α : Type} (r : sce_results α) (m : String) (a : Nat) :
    Option (sce_results α × MethodOut α) :=
  if m = "animated" then some (r, .asBool r.is_animated)
  else if m = "n_frames" then some (r, .asNat r.n_frames)
  else if m = "get_eq" then some (r, .scalar r.get_eq)
  else if m = "get_embedding" then some (r, .vec r.get_embedding)
  else if m = "get_embedding_frame" then
    some (r, match r.get_embedding_frame a with
      | .ok w => .vec w
      | .error e => .failed e)
  else none

/-- Modelled from the spec: hamming-style distance of the distance engine,
the count of mismatched aligned positions between two sequences. -/
def mismatches (a b : List Char) : Nat :=
  ((a.zip b).filter (fun p => p.1 != p.2)).length

/-- Modelled from the spec: full mode of the distance engine emits one
(source, target, distance) triple per unordered pair. -/
def fullTriples (seqs : List (List Char)) : List (Nat × Nat × Nat) :=
  (List.range seqs.length).flatMap (fun i =>
    ((List.range seqs.length).filter (fun j => decide (i < j))).map (fun j =>
      (i, j, mismatches (seqs.getD i []) (seqs.getD j []))))

/-- Insert into a list sorted by the given comparison. -/
def insertSorted {α : Type} (le : α → α → Bool) (x : α) :
    List α → List α
  | [] => [x]
  | y :: ys => if le x y then x :: y :: ys else y :: insertSorted le x ys

/-- Insertion sort by the given comparison. -/
def sortBy {α : Type} (le : α → α → Bool) : List α → List α
  | [] => []
  | x :: xs => insertSorted le x (sortBy le xs)

/-- Modelled from the spec: k-NN mode of the distance engine keeps, per
source, the k smallest-distance targets with ties broken by lower target
index. -/
def knnTriples (seqs : List (List Char)) (k : Nat) :
    List (Nat × Nat × Nat) :=
  (List.range seqs.length).flatMap (fun i =>
    let cands := ((List.range seqs.length).filter (fun j => j != i)).map
      (fun j => (j, mismatches (seqs.getD i []) (seqs.getD j [])))
    ((sortBy (fun a b =>
        decide (a.2 < b.2) || (a.2 == b.2 && decide (a.1 ≤ b.1))) cands).take
      k).map (fun p => (i, p.1, p.2)))

/-- Modelled from the spec: the distance entry point pairsnp, whose
implementation (pairsnp.hpp) is not among the sources here. It consumes a
sequence collection, a thread count (which does not change the output), a
full versus k-NN mode flag and a neighbor count consulted only in k-NN
mode, and returns three parallel sequences: source index, target index,
distance. -/
def pairsnp (fasta : List (List Char)) (n_threads : Nat) (dist : Bool)
    (knn : Nat) : List Nat × List Nat × List Nat :=
  let t := match dist with
    | true => fullTriples fasta
    | false => knnTriples fasta knn
  (t.map (fun e => e.1), t.map (fun e => e.2.1), t.map (fun e => e.2.2))

/-- Claim C1: whether or not the accelerator is available, the module
exposes wtsne with required arguments I_vec, J_vec, dist_vec, weights,
perplexity, maxIter and defaults nRepuSamp = 5, eta0 = 1, bInit = 0,
animated = false, n_workers = 128, n_threads = 1, seed = 1. -/
theorem wtsne_required_and_defaults :
    ∀ g : Bool, (SCE g).findFunc "wtsne" = some wtsne_binding
      ∧ requiredArgNames wtsne_binding =
          ["I_vec", "J_vec", "dist_vec", "weights", "perplexity", "maxIter"]
      ∧ argDefault wtsne_binding "nRepuSamp" = some (.int 5)
      ∧ argDefault wtsne_binding "eta0" = some (.int 1)
      ∧ argDefault wtsne_binding "bInit" = some (.int 0)
      ∧ argDefault wtsne_binding "animated" = some (.bool false)
      ∧ argDefault wtsne_binding "n_workers" = some (.int 128)
      ∧ argDefault wtsne_binding "n_threads" = some (.int 1)
      ∧ argDefault wtsne_binding "seed" = some (.int 1) := by
  intro g
  cases g <;> exact ⟨rfl, by decide, by decide, by decide, by decide,
    by decide, by decide, by decide, by decide⟩

/-- Claim C4: the two accelerator entry points are registered exactly when
the GPU_AVAILABLE guard holds; without it the module exposes only wtsne
and pairsnp. -/
theorem gpu_entry_points_guarded :
    (SCE false).funcs.map PyFunc.name = ["wtsne", "pairsnp"]
      ∧ (SCE true).funcs.map PyFunc.name =
          ["wtsne", "pairsnp", "wtsne_gpu_fp64", "wtsne_gpu_fp32"] := by
  constructor <;> rfl

/-- Claim C10: both precision instantiations of the result class expose a
public constructor taking (bool, size_t, uint64_t). -/
theorem result_ctor_exposed :
    ∀ g : Bool, (SCE g).classes.map PyClassDef.ctorSig =
      [some [CType.cbool, CType.csize_t, CType.cuint64_t],
       some [CType.cbool, CType.csize_t, CType.cuint64_t]] := by
  intro g
  cases g <;> rfl

/-- Arguments of an entry point other than the two accelerator-specific
ones (block size and device identifier). -/
def nonDeviceArgs (f : PyFunc) : List PyArg :=
  f.args.filter (fun a => a.name != "blockSize" && a.name != "device_id")

/-- Claim C3, counterexample: the accelerator entry points do not take
exactly the same inputs as wtsne plus blockSize and device_id — wtsne has
a thread-count argument named n_threads, wtsne_gpu_fp64 has no argument of
that name (it is named cpu_threads there), so the argument lists do not
match even up to reordering. -/
theorem gpu_args_not_host_args :
    "n_threads" ∈ wtsne_binding.args.map PyArg.name
      ∧ "n_threads" ∉ wtsne_gpu_fp64_binding.args.map PyArg.name
      ∧ ¬ (nonDeviceArgs wtsne_gpu_fp64_binding).Perm wtsne_binding.args := by
  refine ⟨by decide, by decide, ?_⟩
  decide

/-- Rename of the host thread-count keyword to the accelerator one. -/
def renameThreads (a : PyArg) : PyArg :=
  if a.name = "n_threads" then ⟨"cpu_threads", a.default⟩ else a

/-- Claim C3, amended: both accelerator entry points exist with one
argument list; apart from blockSize (default 128) and device_id (default
0) that list is a permutation of the wtsne inputs with the thread count
renamed from n_threads to cpu_threads; one entry point binds the fp64
instantiation and the other the fp32 one. -/
theorem gpu_signature_renamed :
    (SCE true).findFunc "wtsne_gpu_fp64" = some wtsne_gpu_fp64_binding
      ∧ (SCE true).findFunc "wtsne_gpu_fp32" = some wtsne_gpu_fp32_binding
      ∧ wtsne_gpu_fp32_binding.args = wtsne_gpu_fp64_binding.args
      ∧ (nonDeviceArgs wtsne_gpu_fp64_binding).Perm
          (wtsne_binding.args.map renameThreads)
      ∧ argDefault wtsne_gpu_fp64_binding "blockSize" = some (.int 128)
      ∧ argDefault wtsne_gpu_fp64_binding "device_id" = some (.int 0)
      ∧ wtsne_gpu_fp64_binding.impl = some .fp64
      ∧ wtsne_gpu_fp32_binding.impl = some .fp32 := by
  exact ⟨rfl, rfl, rfl, by decide, by decide, by decide, rfl, rfl⟩

/-- Claim C2: for both precision instantiations the result class exposes
exactly the five read-only operations, and a method call returns the
object unchanged: the dispatched call succeeds exactly on the five exposed
names and its post-state is always the pre-state. -/
theorem result_container_surface (g : Bool) :
    (SCE g).classes.map PyClassDef.methods = [resultMethods, resultMethods]
      ∧ ∀ (α : Type) (r : sce_results α) (m : String) (a : Nat),
          (runMethod r m a).map Prod.fst =
            if m ∈ resultMethods then some r else none := by
  refine ⟨rfl, ?_⟩
  intro α r m a
  by_cases h1 : m = "animated"
  · simp [runMethod, resultMethods, h1]
  by_cases h2 : m = "n_frames"
  · simp [runMethod, resultMethods, h1, h2]
  by_cases h3 : m = "get_eq"
  · simp [runMethod, resultMethods, h1, h2, h3]
  by_cases h4 : m = "get_embedding"
  · simp [runMethod, resultMethods, h1, h2, h3, h4]
  by_cases h5 : m = "get_embedding_frame"
  · simp [runMethod, resultMethods, h1, h2, h3, h4, h5]
  · simp [runMethod, resultMethods, h1, h2, h3, h4, h5]

/-- Claim C2 witness: on a concrete non-animated fp-free result object the
get_eq call is exposed and leaves the object unchanged. -/
theorem result_container_surface_witness :
    (runMethod (⟨false, [], [], 0⟩ : sce_results Nat) "get_eq" 0).map
      Prod.fst = some (⟨false, [], [], 0⟩ : sce_results Nat) := by
  have h := (result_container_surface true).2 Nat ⟨false, [], [], 0⟩ "get_eq" 0
  rw [h]
  decide

/-- Claim C7: both precision instantiations of the result class are
registered with a reference-counted (std::shared_ptr) holder, and no
exposed method mutates the object: every successful call returns the
pre-state as its post-state. -/
theorem result_shared_immutable (g : Bool) :
    (SCE g).classes.map PyClassDef.holder = [Holder.sharedPtr, Holder.sharedPtr]
      ∧ ∀ (α : Type) (r : sce_results α) (m : String) (a : Nat),
          runMethod r m a = (runMethod r m a).map (fun out => (r, out.2)) := by
  refine ⟨rfl, ?_⟩
  intro α r m a
  unfold runMethod
  split_ifs <;> rfl

/-- Claim C6: requesting a frame on a non-animated result, or a frame
index at or beyond the frame count, yields the usage error and never
data. -/
theorem frame_access_errors (α : Type) (r : sce_results α) (frame : Nat)
    (h : r.is_animated = false ∨ r.n_frames ≤ frame) :
    r.get_embedding_frame frame = .error .usage
      ∧ ∀ v, r.get_embedding_frame frame ≠ Except.ok v := by
  have hcond : ¬ (r.animated = true ∧ frame < r.frames.length) := by
    rcases h with h | h
    · simp [sce_results.is_animated] at h
      simp [h]
    · simp [sce_results.n_frames] at h
      intro hc
      exact absurd hc.2 (Nat.not_lt.mpr h)
  constructor
  · rw [sce_results.get_embedding_frame, dif_neg hcond]
  · intro v hv
    rw [sce_results.get_embedding_frame, dif_neg hcond] at hv
    exact Except.noConfusion hv

/-- Claim C6 witness: a concrete non-animated result refuses frame 0. -/
theorem frame_access_errors_witness :
    sce_results.get_embedding_frame (⟨false, [], [], 0⟩ : sce_results Nat) 0
      = Except.error SCEError.usage :=
  (frame_access_errors Nat ⟨false, [], [], 0⟩ 0 (Or.inl rfl)).1

/-- Claim C5: the module registers a result-container instantiation for
each of the two precisions, each with the full accessor surface, and an
embedding entry point bound at each precision (the fp64 engine twice, on
the host and accelerator paths, and the fp32 engine on the accelerator
path); precision is a type parameter of sce_results, so one run holds all
its buffers at a single precision. -/
theorem dual_precision_registrations :
    (SCE true).classes.map PyClassDef.precision =
        [Precision.fp64, Precision.fp32]
      ∧ (SCE true).classes.map PyClassDef.methods =
        [resultMethods, resultMethods]
      ∧ (SCE true).funcs.filterMap
          (fun f => f.impl.map (fun p => (f.name, p))) =
        [("wtsne", Precision.fp64), ("wtsne_gpu_fp64", Precision.fp64),
         ("wtsne_gpu_fp32", Precision.fp32)] := by
  exact ⟨rfl, rfl, rfl⟩

/-- Claim C9: pairsnp is registered with exactly the four required inputs
(sequence collection, thread count, mode flag, neighbor count), its three
output sequences always have equal length, and the neighbor count is
consulted only in k-NN mode (full-mode output is independent of it). -/
theorem pairsnp_surface_and_parallel_output :
    (∀ g : Bool, (SCE g).findFunc "pairsnp" = some pairsnp_binding)
      ∧ pairsnp_binding.args =
          [req "fasta", req "n_threads", req "dist", req "knn"]
      ∧ (∀ (fasta : List (List Char)) (t : Nat) (d : Bool) (k : Nat),
          (pairsnp fasta t d k).1.length = (pairsnp fasta t d k).2.1.length
            ∧ (pairsnp fasta t d k).2.1.length =
                (pairsnp fasta t d k).2.2.length)
      ∧ ∀ (fasta : List (List Char)) (t k k2 : Nat),
          pairsnp fasta t true k = pairsnp fasta t true k2 := by
  refine ⟨?_, rfl, ?_, ?_⟩
  · intro g
    cases g <;> rfl
  · intro fasta t d k
    cases d <;> simp [pairsnp]
  · intro fasta t k k2
    rfl
